import Mathlib

/-!
Verification development for the concurrent LLM-batch annotation pipeline of the
`akropolis_monthly_tracking` repository.

The Python analysis modules are shallowly embedded as executable Lean
definitions.  External collaborators (the OpenAI chat client and the `json`
standard-library decoder) are modelled as oracle functions passed explicitly:
a raised exception is an `Except.error` value.  Python strings are Lean
`String`s (Python indexes and slices characters, as does our `strTake`), and
Python `float` scores that the code only ever sets to exact literals are
modelled as `Rat`.
-/

namespace Akropolis

/-! ## Python string semantics helpers -/

/-- The whitespace class used by Python `str.split()` / `str.strip()` /
`re` class `\s` (ASCII part; the code never feeds other Unicode spaces). -/
def pyIsSpace (c : Char) : Bool :=
  c = ' ' || c = '\t' || c = '\n' || c = '\x0d' || c = '\x0b' || c = '\x0c'

/-- Whether `pat` is a literal prefix of `s` (on character lists). -/
def startsWithChars : List Char → List Char → Bool
  | _, [] => true
  | [], _ :: _ => false
  | c :: cs, d :: ds => c = d && startsWithChars cs ds

def containsSubChars : List Char → List Char → Bool
  | [], pat => pat.isEmpty
  | c :: rest, pat => startsWithChars (c :: rest) pat || containsSubChars rest pat

/-- Python `pat in s` (substring containment). -/
def containsSub (s pat : String) : Bool :=
  containsSubChars s.toList pat.toList

/-- Python `str.lower()` (ASCII case folding, as in the modelled labels). -/
def strToLower (s : String) : String :=
  String.mk (s.toList.map Char.toLower)

/-- The numeric value of an all-digit character list (`int(word)` after an
`isdigit` check). -/
def digitsToNat (cs : List Char) : Nat :=
  cs.foldl (fun n c => n * 10 + (c.toNat - 48)) 0

/-- Python slice `s[:n]` (by characters). -/
def strTake (s : String) (n : Nat) : String :=
  String.mk (s.toList.take n)

/-- Python slice `s[a:b]` (by characters). -/
def strSlice (s : String) (a b : Nat) : String :=
  String.mk ((s.toList.drop a).take (b - a))

/-- Python `str.strip()` on a character list. -/
def pyStripList (cs : List Char) : List Char :=
  ((cs.dropWhile pyIsSpace).reverse.dropWhile pyIsSpace).reverse

/-- Python `str.strip()`. -/
def pyStrip (s : String) : String :=
  String.mk (pyStripList s.toList)

/-- Worker for `pySplitlines`: `cur` holds the current line reversed; a
terminator ends a line, and a terminator at the very end of the input does
not open a new empty line. -/
def pySplitlinesAux (cur : List Char) : List Char → List String
  | [] => [String.mk cur.reverse]
  | ['\n'] => [String.mk cur.reverse]
  | ['\x0d'] => [String.mk cur.reverse]
  | '\x0d' :: '\n' :: r :: rs => String.mk cur.reverse :: pySplitlinesAux [] (r :: rs)
  | ['\x0d', '\n'] => [String.mk cur.reverse]
  | '\n' :: r :: rs => String.mk cur.reverse :: pySplitlinesAux [] (r :: rs)
  | '\x0d' :: r :: rs => String.mk cur.reverse :: pySplitlinesAux [] (r :: rs)
  | c :: rest => pySplitlinesAux (c :: cur) rest

/-- Python `str.splitlines()` (restricted to the `\n`, `\r`, `\r\n`
terminators the modelled responses can contain): split on line boundaries,
with no trailing empty line for a trailing terminator and `[]` for `""`. -/
def pySplitlines (s : String) : List String :=
  if s = "" then [] else pySplitlinesAux [] s.toList

/-- Worker for `pyWords`: `cur` holds the current word reversed; whitespace
runs separate words and produce no empty fields. -/
def pyWordsAux (cur : List Char) : List Char → List String
  | [] => if cur.isEmpty then [] else [String.mk cur.reverse]
  | c :: rest =>
    if pyIsSpace c then
      if cur.isEmpty then pyWordsAux [] rest
      else String.mk cur.reverse :: pyWordsAux [] rest
    else pyWordsAux (c :: cur) rest

/-- Python `str.split()` with no arguments: split on whitespace runs,
discarding empty fields. -/
def pyWords (s : String) : List String :=
  pyWordsAux [] s.toList

/-- Python `s.find(c)` as an `Option` (`none` for `-1`). -/
def firstIdxOf (s : String) (c : Char) : Option Nat :=
  s.toList.findIdx? (· = c)

/-- Python `s.rfind(c)` as an `Option` (`none` for `-1`). -/
def lastIdxOf (s : String) (c : Char) : Option Nat :=
  match s.toList.reverse.findIdx? (· = c) with
  | some j => some (s.toList.length - 1 - j)
  | none => none

/-- Python `_, value = line.split(c, 1)`: the text after the first
occurrence of `c`, or `none` when `c` is absent (where the Python
unpacking raises `ValueError`). -/
def splitOnceAfter (line : String) (c : Char) : Option String :=
  match line.toList.findIdx? (· = c) with
  | some i => some (String.mk (line.toList.drop (i + 1)))
  | none => none

/-- The `{` character (written numerically). -/
def lbrace : Char := Char.ofNat 123

/-- The `}` character (written numerically). -/
def rbrace : Char := Char.ofNat 125

/-! ## Configuration constants (`config.py`) -/

def MAX_WORKERS : Nat := 20
def MIN_ADS_FOR_ANALYSIS : Nat := 5
def MIN_POSTS_FOR_ANALYSIS : Nat := 5

/-! ## JSON values and the decoder boundary

`json.loads` is the Python standard library; the core treats it as an
external collaborator.  We model decoded values as `Json` and a decoder as
an oracle `String → Except JsonDecodeError Json`, where the error records
whether its message contains "Unterminated string" together with `e.pos`.
-/

inductive Json where
  | null : Json
  | bool (b : Bool) : Json
  | num (q : Rat) : Json
  | str (s : String) : Json
  | arr (elems : List Json) : Json
  | obj (fields : List (String × Json)) : Json

/-- Outcome of a failed `json.loads`: an unterminated-string error carrying
`e.pos`, or any other `JSONDecodeError`. -/
inductive JsonDecodeError where
  | unterminatedString (pos : Nat) : JsonDecodeError
  | other : JsonDecodeError

/-- A decoder oracle standing for `json.loads`. -/
def JsonDecoder : Type := String → Except JsonDecodeError Json

def exceptToOption {ε α : Type} : Except ε α → Option α
  | .ok a => some a
  | .error _ => none

/-- The safe fallback value `chat_json` returns when every repair fails. -/
def chatJsonFallback : Json := .obj [("rankings", .arr [])]

/-- Repair heuristic (b) of `chat_json` (`creativity_analysis.py` lines
152-157): locate the first `{` and the last `}` and decode that substring;
`none` when the braces are missing/misordered or the decode raises. -/
def tryExtractBraces (decode : JsonDecoder) (raw : String) : Option Json :=
  match firstIdxOf raw lbrace, lastIdxOf raw rbrace with
  | some s, some e => if e > s then exceptToOption (decode (strSlice raw s (e + 1))) else none
  | _, _ => none

/-- The response-parsing core of `chat_json` (`creativity_analysis.py` lines
134-164): direct decode, then repair heuristic (a) for unterminated-string
errors (truncate at the last `}` before `e.pos` and re-decode), then
heuristic (b), then the `{"rankings": []}` fallback.  A failing re-decode
inside heuristic (a) is caught by the surrounding `except` and yields the
fallback, exactly as in the source. -/
def chat_json_parse (decode : JsonDecoder) (raw : String) : Json :=
  match decode raw with
  | .ok v => v
  | .error e =>
    let attempt : Option Json :=
      match e with
      | .unterminatedString pos =>
        let truncated := strTake raw pos
        match lastIdxOf truncated rbrace with
        | some lastBrace => exceptToOption (decode (strTake truncated (lastBrace + 1)))
        | none => tryExtractBraces decode raw
      | .other => tryExtractBraces decode raw
    attempt.getD chatJsonFallback

/-! ## CompOS archetype annotation (`analysis/ads/compos_analysis.py`)

The OpenAI client is an oracle `llm : String → Except Unit String`: for a
given input text it either returns the response text or raises.
-/

/-- The guard of `assign_archetype` (line 50): empty / whitespace-only /
literal `nan` input short-circuits to `"No Content"` without an LLM call. -/
def isNoContentText (text : String) : Bool :=
  text = "" || pyStrip text = "" || strToLower text = "nan"

/-- The response-parsing loop of `assign_archetype` (lines 64-70): the first
line containing `"Top Archetype"` is split at its first `:`; a matching line
without a `:` makes the Python tuple unpacking raise (`Except.error`); no
matching line leaves the archetype `None`. -/
def parseTopArchetype (output : String) : Except Unit (Option String) :=
  match (pySplitlines output).find? (fun l => containsSub l "Top Archetype") with
  | none => .ok none
  | some line =>
    match splitOnceAfter line ':' with
    | none => .error ()
    | some value => .ok (some (pyStrip value))

/-- `assign_archetype` (lines 45-76): the annotation worker for one row.
Any exception from the LLM call or from response handling is caught and
converted to the terminal `"Error"` label; an absent or empty parsed value
becomes `"Parsing Error"`. -/
def assign_archetype (llm : String → Except Unit String) (text : String) (idx : Nat) :
    Nat × String :=
  if isNoContentText text then (idx, "No Content")
  else
    match llm text with
    | .error _ => (idx, "Error")
    | .ok output =>
      match parseTopArchetype output with
      | .error _ => (idx, "Error")
      | .ok none => (idx, "Parsing Error")
      | .ok (some v) => (idx, if v = "" then "Parsing Error" else v)

/-- One collected result in `run_compos_analysis`'s gathering loop (lines
96-103): `future.result()` either returns the worker's pair or raises, in
which case the collector falls back to `(futures[future], "Error")`.
`futureFails i` models a future whose `result()` raises for row `i`. -/
def workerResult (llm : String → Except Unit String) (futureFails : Nat → Bool)
    (idx : Nat) (text : String) : Nat × String :=
  if futureFails idx then (idx, "Error") else assign_archetype llm text idx

/-- The per-row results in submission order: `enumerate(df[text_column])`
feeding one worker per row (lines 91-93). -/
def dispatchFrom (llm : String → Except Unit String) (futureFails : Nat → Bool) :
    Nat → List String → List (Nat × String)
  | _, [] => []
  | i, t :: ts => workerResult llm futureFails i t :: dispatchFrom llm futureFails (i + 1) ts

def dispatchResults (llm : String → Except Unit String) (futureFails : Nat → Bool)
    (texts : List String) : List (Nat × String) :=
  dispatchFrom llm futureFails 0 texts

/-- Comparison key used by `results.sort(key=lambda x: x[0])` (line 106). -/
abbrev keyLe (a b : Nat × String) : Prop := a.1 ≤ b.1

abbrev keyLt (a b : Nat × String) : Prop := a.1 < b.1

instance : DecidableRel keyLe := fun a b => inferInstanceAs (Decidable (a.1 ≤ b.1))

instance : IsTotal (Nat × String) keyLe := ⟨fun a b => Nat.le_total a.1 b.1⟩

instance : IsTrans (Nat × String) keyLe := ⟨fun _ _ _ h1 h2 => Nat.le_trans h1 h2⟩

instance : IsAntisymm (Nat × String) keyLt :=
  ⟨fun _ _ h1 h2 => absurd h2 (Nat.lt_asymm h1)⟩

/-- `results.sort(key=lambda x: x[0])`: sort collected pairs by stable row
index. -/
def sortByIdx (results : List (Nat × String)) : List (Nat × String) :=
  List.insertionSort keyLe results

/-! ## DataFrame model

A dataframe is its ordered list of named columns.  `setCol` is pandas column
assignment: an existing column is overwritten in place, a new one is
appended as the last column.
-/

abbrev DataFrame : Type := List (String × List String)

def hasCol (df : DataFrame) (name : String) : Bool :=
  df.any (fun c => c.1 = name)

def setCol (df : DataFrame) (name : String) (vals : List String) : DataFrame :=
  if hasCol df name then
    df.map (fun c => if c.1 = name then (name, vals) else c)
  else df ++ [(name, vals)]

def colValues (df : DataFrame) (name : String) : List String :=
  match df.find? (fun c => c.1 = name) with
  | some c => c.2
  | none => []

/-- `run_compos_analysis` (lines 78-113) after the fan-out: `completed` is
the sequence of per-row results in the order the futures completed (in the
theorems it is constrained to a permutation of `dispatchResults`); the
collected list is sorted by stable row index and assigned as the
`"Top Archetype"` column of a copy of the input. -/
def run_compos_analysis (df : DataFrame) (completed : List (Nat × String)) : DataFrame :=
  setCol df "Top Archetype" ((sortByIdx completed).map Prod.snd)

/-! ## Audience affinity (`analysis/social_media/audience_affinity.py`)

`PERSONA_PROMPTS` is modelled by each persona's `"columns"` entry (the
prompt texts are irrelevant to the parser and are elided).
-/

/-- The `"columns"` lists of `PERSONA_PROMPTS` (lines 106-190). -/
def PERSONA_PROMPTS : List (String × List String) :=
  [("Families & Household Shoppers",
      ["Family_Kids_Products", "Family_Kids_Events", "Family_Household_Discounts"]),
   ("Young Adults – Tech & Fashion",
      ["Young_Tech_Gaming", "Young_Fashion_Style", "Young_Social_Events"]),
   ("Store Owners & Business Partners",
      ["Store_Business_Growth", "Store_Partnership_CoMarketing", "Store_Market_Insights"]),
   ("Shopping Experience & Mall Environment",
      ["Experience_Accessibility_Comfort", "Experience_Ambience_Design",
       "Experience_Mallwide_Events"])]

def personaColumns (persona : String) : List String :=
  match PERSONA_PROMPTS.find? (fun p => p.1 = persona) with
  | some p => p.2
  | none => []

/-- `column_mappings` of `parse_affinity_response` (lines 199-212). -/
def columnMappings (col : String) : List String :=
  if col = "Family_Kids_Products" then
    ["Kids\x27 Products Relevance", "Kids Products", "Products Relevance"]
  else if col = "Family_Kids_Events" then
    ["Kids\x27 Events & Activities", "Kids Events", "Events Activities"]
  else if col = "Family_Household_Discounts" then
    ["Household Savings & Discounts", "Household Discounts", "Savings Discounts"]
  else if col = "Young_Tech_Gaming" then
    ["Technology & Gaming Relevance", "Technology Gaming", "Gaming Relevance"]
  else if col = "Young_Fashion_Style" then
    ["Fashion & Style for Young Adults", "Fashion Style", "Style Young Adults"]
  else if col = "Young_Social_Events" then
    ["Social & Youth-Oriented Events", "Social Events", "Youth Events"]
  else if col = "Store_Business_Growth" then
    ["Business Growth Opportunities", "Business Growth", "Growth Opportunities"]
  else if col = "Store_Partnership_CoMarketing" then
    ["Partnership & Co-Marketing Potential", "Partnership Marketing", "Co-Marketing"]
  else if col = "Store_Market_Insights" then
    ["Market Insights & Strategic Positioning", "Market Insights", "Strategic Positioning"]
  else if col = "Experience_Accessibility_Comfort" then
    ["Accessibility & Comfort", "Accessibility Comfort", "Comfort"]
  else if col = "Experience_Ambience_Design" then
    ["Ambience & Design Quality", "Ambience Design", "Design Quality"]
  else if col = "Experience_Mallwide_Events" then
    ["Mall-Wide Events & Services", "Mallwide Events", "Events Services"]
  else []

/-- The score-extraction loop (lines 223-227): the first whitespace-separated
word of the line that is all digits and whose value lies in 1..7. -/
def extractScore (line : String) : Option Nat :=
  (pyWords line).findSome? (fun w =>
    if ¬w.toList.isEmpty && w.toList.all Char.isDigit then
      let n := digitsToNat w.toList
      if 1 ≤ n && n ≤ 7 then some n else none
    else none)

/-- Whether a (stripped) response line matches one of `col`'s label
aliases, case-insensitively (line 220). -/
def lineMatchesCol (line col : String) : Bool :=
  (columnMappings col).any (fun m => containsSub (strToLower line) (strToLower m))

/-- The scores dictionary: insertion-ordered association list with
overwriting assignment, as a Python `dict`. -/
def dictInsert (sc : List (String × Nat)) (key : String) (v : Nat) : List (String × Nat) :=
  if sc.any (fun p => p.1 = key) then
    sc.map (fun p => if p.1 = key then (key, v) else p)
  else sc ++ [(key, v)]

def dictLookup (sc : List (String × Nat)) (key : String) : Option Nat :=
  match sc.find? (fun p => p.1 = key) with
  | some p => some p.2
  | none => none

/-- The per-line body of the scan loop of `parse_affinity_response` (lines
214-232): for each expected column, if any of its label aliases occurs in
the (stripped, lowercased) line and the line carries an in-range score, the
column's entry is (re)assigned — a later matching line overwrites an
earlier one. -/
def processLine (sc : List (String × Nat)) (line : String) (columns : List String) :
    List (String × Nat) :=
  columns.foldl (fun sc col =>
    if lineMatchesCol line col then
      match extractScore line with
      | some s => dictInsert sc col s
      | none => sc
    else sc) sc

/-- `parse_affinity_response` (lines 193-239): scan all lines, then fill
every still-missing expected column with the neutral default 4. -/
def parse_affinity_response (responseText : String) (persona : String) :
    List (String × Nat) :=
  let columns := personaColumns persona
  let scores := (pySplitlines responseText).foldl
    (fun sc line => processLine sc (pyStrip line) columns) []
  columns.map (fun col => (col, (dictLookup scores col).getD 4))

/-- `analyze_individual_post` (lines 241-273): call the LLM and parse; any
exception is caught and replaced by the full set of neutral scores. -/
def analyze_individual_post (llm : String → Except Unit String) (postContent : String)
    (persona : String) : List (String × Nat) :=
  match llm postContent with
  | .ok response => parse_affinity_response response persona
  | .error _ => (personaColumns persona).map (fun col => (col, 4))

/-! ## Creativity analysis (`analysis/social_media/creativity_analysis.py`) -/

def TEMPERATURE_NUM : Rat := 2/10
def MAX_ITEMS_PER_BRAND : Nat := 50
def TOP_K_PER_BRAND : Nat := 10
def MAX_CHARS_PER_ITEM : Nat := 1000
def CROSS_BRAND_TEXT_CHARS : Nat := 300

/-- Collapse each maximal whitespace run to a single space
(`re.sub(r"\s+", " ", s)`); `prevSpace` records whether the previous
character belonged to a run already emitted. -/
def collapseWsAux : Bool → List Char → List Char
  | _, [] => []
  | prevSpace, c :: rest =>
    if pyIsSpace c then
      if prevSpace then collapseWsAux true rest
      else ' ' :: collapseWsAux true rest
    else c :: collapseWsAux false rest

/-- `normalize_text` (lines 78-84): `\n` and `\r` to spaces, whitespace runs
collapsed, then stripped.  (Non-string input is mapped to `""` by the
source; the model's inputs are already strings.) -/
def normalize_text (s : String) : String :=
  let replaced := s.toList.map (fun c => if c = '\n' || c = '\x0d' then ' ' else c)
  pyStrip (String.mk (collapseWsAux false replaced))

/-- The horizontal-ellipsis character appended by `truncate`. -/
def ellipsisChar : Char := Char.ofNat 8230

/-- `truncate` (lines 86-90): unchanged when within `limit`, otherwise the
first `limit` characters with `"…"` appended. -/
def truncate (s : String) (limit : Nat) : String :=
  if s = "" then ""
  else if s.length ≤ limit then s
  else strTake s limit ++ String.mk [ellipsisChar]

/-- The per-item cleaning lambda of `run_creativity_analysis` (line 284):
`truncate(normalize_text(x), MAX_CHARS_PER_ITEM)`. -/
def clean_text (x : String) : String :=
  truncate (normalize_text x) MAX_CHARS_PER_ITEM

/-- One content item of a brand group: text plus optional numeric reach. -/
structure Item where
  text : String
  reach : Option Rat

/-- One row of the per-brand top-k table (`process_brand`'s `brand_rows`). -/
structure Row where
  brand : String
  reach : Option Rat
  text : String

/-- Python truthiness of a decoded JSON value. -/
def pyTruthy (j : Json) : Bool :=
  match j with
  | .null => false
  | .bool b => b
  | .num q => q ≠ 0
  | .str s => s ≠ ""
  | .arr xs => ¬xs.isEmpty
  | .obj fs => ¬fs.isEmpty

/-- Python `data.get(key, default)` on a decoded value: raises
(`Except.error`) when `data` is not a dict. -/
def pyDictGet (data : Json) (key : String) (dflt : Json) : Except Unit Json :=
  match data with
  | .obj fields =>
    match fields.find? (fun f => f.1 = key) with
    | some f => .ok f.2
    | none => .ok dflt
  | _ => .error ()

/-- One candidate of `selected_topk` (line 217): keep `int`/`float`/`str`
values whose `str(i).strip().lstrip("-")` is all digits, then convert with
`int(i)`; a double-minus string passes the filter but makes `int` raise. -/
def selectedEntryInt (j : Json) : Option (Except Unit Int) :=
  match j with
  | .num q => if q.den = 1 then some (.ok q.num) else none
  | .str s =>
    let t := (pyStrip s).toList
    let core := t.dropWhile (· = '-')
    if ¬core.isEmpty && core.all Char.isDigit then
      if t.length - core.length ≤ 1 then
        some (.ok (if t.length - core.length = 1 then -(Int.ofNat (digitsToNat core))
                   else Int.ofNat (digitsToNat core)))
      else some (.error ())
    else none
  | _ => none

/-- `list(dict.fromkeys(xs))`: de-duplicate keeping first occurrences. -/
def dedupKeepFirstAux (seen : List Int) : List Int → List Int
  | [] => []
  | x :: rest =>
    if x ∈ seen then dedupKeepFirstAux seen rest
    else x :: dedupKeepFirstAux (x :: seen) rest

def dedupKeepFirst (xs : List Int) : List Int :=
  dedupKeepFirstAux [] xs

/-- The validated within-brand selection result. -/
structure Sel where
  selected_topk : List Int
  selected_details : List Json
  notes_overall : Json

/-- The normalize-and-validate block of `select_topk_within_brand` (lines
213-229): cast/filter/de-duplicate/cap `selected_topk`, coerce
`selected_details` to a list, default `notes_overall` to `""`.  Errors of
the `.get` calls or of `int(...)` propagate. -/
def normalizeSel (data : Json) (topK : Nat) : Except Unit Sel := do
  let sel0 ← pyDictGet data "selected_topk" (.arr [])
  let selList := match sel0 with
    | .arr xs => xs
    | _ => []
  let casted ← selList.foldrM (fun j acc =>
    match selectedEntryInt j with
    | some (.ok n) => .ok (n :: acc)
    | some (.error _) => .error ()
    | none => .ok acc) []
  let selected := (dedupKeepFirst casted).take topK
  let details0 ← pyDictGet data "selected_details" (.arr [])
  let details := match details0 with
    | .arr xs => xs
    | _ => []
  let notes ← pyDictGet data "notes_overall" (.str "")
  .ok { selected_topk := selected, selected_details := details, notes_overall := notes }

/-- Retry ceiling of the `tenacity` decorators: `stop_after_attempt(5)`. -/
def STOP_AFTER_ATTEMPT : Nat := 5

/-- `tenacity.retry`: run the attempt oracle until success or the fixed
attempt ceiling, returning the outcome together with the number of attempts
actually made. -/
def retryCallAux {α : Type} (attempt : Nat → Except Unit α) :
    Nat → Nat → Except Unit α × Nat
  | k, 0 => (.error (), k)
  | k, fuel + 1 =>
    match attempt k with
    | .ok a => (.ok a, k + 1)
    | .error _ =>
      if fuel = 0 then (.error (), k + 1)
      else retryCallAux attempt (k + 1) fuel

def retryCall {α : Type} (attempt : Nat → Except Unit α) : Except Unit α × Nat :=
  retryCallAux attempt 0 STOP_AFTER_ATTEMPT

/-- One attempt of `select_topk_within_brand` (lines 191-229): the chat
call (raises on transport failure), `chat_json`'s tolerant parse, then
normalization (whose exceptions also trigger a retry). -/
def selAttempt (call : Nat → Except Unit String) (decode : JsonDecoder) (topK : Nat)
    (attemptIdx : Nat) : Except Unit Sel :=
  match call attemptIdx with
  | .error _ => .error ()
  | .ok raw => normalizeSel (chat_json_parse decode raw) topK

/-- `select_topk_within_brand` with its `@retry` decorator, instrumented
with the number of chat attempts made. -/
def select_topk_within_brand (call : Nat → Except Unit String) (decode : JsonDecoder)
    (topK : Nat) : Except Unit Sel × Nat :=
  retryCall (selAttempt call decode topK)

/-- Outcome of `process_brand` for one brand group. -/
structure BrandResult where
  brand : String
  skipped : Bool
  reason : String
  selection : Option Sel
  rows : List Row

/-- The index-to-row mapping of `process_brand` (lines 336-344): selected
indices within bounds become top-k rows of the brand. -/
def selectionRows (brand : String) (g : List Item) (selected : List Int) : List Row :=
  selected.filterMap (fun idx =>
    if h : 0 ≤ idx ∧ idx.toNat < g.length then
      let item := g.get ⟨idx.toNat, h.2⟩
      some { brand := brand, reach := item.reach, text := item.text }
    else none)

/-- `process_brand` (lines 317-350), instrumented with the number of LLM
chat attempts: groups below `MIN_ADS_FOR_ANALYSIS` are skipped before any
call; otherwise the within-brand selection runs (with retries) and any
exception yields a skipped-with-error result. -/
def process_brand (call : Nat → Except Unit String) (decode : JsonDecoder)
    (brand : String) (g : List Item) : BrandResult × Nat :=
  if g.length < MIN_ADS_FOR_ANALYSIS then
    ({ brand := brand, skipped := true,
       reason := "too few ads (" ++ toString g.length ++ " < " ++
         toString MIN_ADS_FOR_ANALYSIS ++ ")",
       selection := none, rows := [] }, 0)
  else
    let dynTopK := min TOP_K_PER_BRAND g.length
    match select_topk_within_brand call decode dynTopK with
    | (.ok sel, n) =>
      ({ brand := brand, skipped := false, reason := "",
         selection := some sel, rows := selectionRows brand g sel.selected_topk }, n)
    | (.error _, n) =>
      ({ brand := brand, skipped := true, reason := "error", selection := none,
         rows := [] }, n)

/-! ### Cross-brand ranking and its deterministic fallback -/

/-- The top-k rows accumulated from the non-skipped brand results
(`per_brand_topk_rows`, lines 362-372); the input list is in completion
order, which the fallback's sort-and-dedup makes irrelevant. -/
def perBrandTopkRows (results : List BrandResult) : List Row :=
  (results.filter (fun r => !r.skipped)).flatMap (fun r => r.rows)

/-- The brand column of the top-k table (`topk_df[brand_column]`). -/
def topkBrandColumn (results : List BrandResult) : List String :=
  (perBrandTopkRows results).map (fun r => r.brand)

/-- The names of the non-skipped brands (those contributing a `selections`
entry). -/
def nonSkippedBrands (results : List BrandResult) : List String :=
  (results.filter (fun r => !r.skipped)).map (fun r => r.brand)

/-- `sorted(xs.unique())`: the distinct values in ascending lexicographic
order. -/
def sortedUnique (xs : List String) : List String :=
  List.insertionSort (· ≤ ·) xs.dedup

/-- One row of the fallback ranking table (lines 410-419). -/
structure RankEntry where
  brand : String
  rank : Nat
  originality_score : Rat
  justification : String
  examples : List String
deriving DecidableEq

/-- `enumerate(sorted(...))` of the fallback construction: entry `i` gets
rank `i + 1`, the neutral score `5.0` and no examples. -/
def fallbackFrom (errMsg : String) : Nat → List String → List RankEntry
  | _, [] => []
  | i, b :: bs =>
    { brand := b, rank := i + 1, originality_score := 5,
      justification := "Fallback due to ranking error: " ++ strTake errMsg 100,
      examples := [] } :: fallbackFrom errMsg (i + 1) bs

/-- The deterministic fallback table (lines 409-419): every brand of the
top-k table, alphabetically, with neutral scores. -/
def fallbackTable (topkBrands : List String) (errMsg : String) : List RankEntry :=
  fallbackFrom errMsg 0 (sortedUnique topkBrands)

/-- Python `key in value` (the generator of line 404): key membership for
dicts, substring test for strings, element equality for lists, `TypeError`
otherwise. -/
def pyIn (key : String) (j : Json) : Except Unit Bool :=
  match j with
  | .obj fields => .ok (fields.any (fun f => f.1 = key))
  | .str s => .ok (containsSub s key)
  | .arr xs => .ok (xs.any (fun x => match x with | .str t => t = key | _ => false))
  | _ => .error ()

/-- The required fields of a ranking entry (line 404). -/
def requiredRankingKeys : List String :=
  ["brand", "rank", "originality_score", "justification"]

/-- Whether one decoded ranking entry passes the field check; a `TypeError`
from `in` and a missing field both lead to the fallback, so they collapse
to `false`. -/
def rankingEntryValid (entry : Json) : Bool :=
  requiredRankingKeys.all (fun k =>
    match pyIn k entry with
    | .ok b => b
    | .error _ => false)

/-- The validation block of `run_creativity_analysis` (lines 396-405):
`rankings` must be a non-empty list whose entries all carry the required
fields; any violation (or exception) sends control to the fallback. -/
def validateRankings (data : Json) : Option (List Json) :=
  match pyDictGet data "rankings" (.arr []) with
  | .error _ => none
  | .ok r =>
    match r with
    | .arr xs =>
      if xs.isEmpty then none
      else if xs.all rankingEntryValid then some xs else none
    | _ => none

/-- The cross-brand ranking step (lines 393-419): `crossBrand` is the
outcome of `rank_brands_cross_brand` (`Except.error` models the call
raising after its retries); on success the validated raw entries are kept
(`Sum.inr`), on any failure the deterministic fallback table is built from
the top-k table's brand column (`Sum.inl`). -/
def crossBrandRankings (crossBrand : Except Unit Json) (topkBrands : List String)
    (errMsg : String) : List RankEntry ⊕ List Json :=
  match crossBrand with
  | .ok data =>
    match validateRankings data with
    | some xs => .inr xs
    | none => .inl (fallbackTable topkBrands errMsg)
  | .error _ => .inl (fallbackTable topkBrands errMsg)

/-- Whether the cross-brand ranking step takes its fallback path. -/
def rankingFailed (crossBrand : Except Unit Json) : Bool :=
  match crossBrand with
  | .ok data => (validateRankings data).isNone
  | .error _ => true

/-! ## Key advantages (`analysis/ads/key_advantages.py`) -/

/-- One flattened advantage-example row (lines 171-182). -/
structure KARow where
  advantage_id : Nat
  title : Json
  category : Json
  evidence_list : String
  example_index : Json
  example_quote : Json

/-- Python `a or b` on decoded values. -/
def pyOrJson (a b : Json) : Json :=
  if pyTruthy a then a else b

/-- Python `dict.get(key)` (default `None`); raises unless a dict. -/
def pyDictGetN (j : Json) (key : String) : Except Unit Json :=
  pyDictGet j key .null

/-- Python iteration over a decoded value: list elements, string
characters, dict keys; `TypeError` otherwise. -/
def pyIter (j : Json) : Except Unit (List Json) :=
  match j with
  | .arr xs => .ok xs
  | .str s => .ok (s.toList.map (fun c => .str (String.mk [c])))
  | .obj fields => .ok (fields.map (fun f => .str f.1))
  | _ => .error ()

/-- Join strings with a separator (`sep.join(xs)`). -/
def joinSep (sep : String) : List String → String
  | [] => ""
  | [x] => x
  | x :: y :: rest => x ++ sep ++ joinSep sep (y :: rest)

/-- Python `" | ".join(xs)` over a decoded value: every joined element must
be a string. -/
def pyJoinEvidence (j : Json) : Except Unit String := do
  let elems ← pyIter j
  let strs ← elems.foldrM (fun e acc =>
    match e with
    | .str s => .ok (s :: acc)
    | _ => .error ()) []
  .ok (joinSep " | " strs)

/-- The per-example rows of one advantage (lines 172-182). -/
def advantageRows (advIdx : Nat) (adv : Json) : Except Unit (List KARow) := do
  let examples0 ← pyDictGetN adv "examples"
  let examples := pyOrJson examples0 (.arr [.obj []])
  let exList ← pyIter examples
  let title ← pyDictGetN adv "title"
  let category ← pyDictGetN adv "category"
  let evidence0 ← pyDictGet adv "evidence" (.arr [])
  let evidence ← pyJoinEvidence (pyOrJson evidence0 (.arr []))
  exList.foldrM (fun ex acc => do
    let adIdx ← pyDictGetN ex "ad_index"
    let artIdx ← pyDictGetN ex "article_index"
    let postIdx ← pyDictGetN ex "post_index"
    let quote ← pyDictGetN ex "quote"
    .ok ({ advantage_id := advIdx, title := title, category := category,
           evidence_list := evidence,
           example_index := pyOrJson adIdx (pyOrJson artIdx postIdx),
           example_quote := quote } :: acc)) []

/-- The flattening loop of `process_company` (lines 170-182), starting
`enumerate` at 1. -/
def flattenAdvantages (advs : List Json) : Except Unit (List KARow) := do
  let rowss ← (List.enumFrom 1 advs).foldrM (fun p acc => do
    let rows ← advantageRows p.1 p.2
    .ok (rows :: acc)) []
  .ok rowss.flatten

/-- `process_company` of `run_key_advantages_analysis` (lines 152-188),
instrumented with the number of LLM calls: a group below
`MIN_ADS_FOR_ANALYSIS` is skipped with zero calls; otherwise the model is
called once, a decode failure falls back to an empty `advantages` payload,
and any exception while flattening yields the empty per-company result. -/
def process_company (callModel : Except Unit String) (decode : JsonDecoder)
    (company : String) (groupDf : List Item) :
    (String × List KARow × List Json) × Nat :=
  if groupDf.length < MIN_ADS_FOR_ANALYSIS then ((company, [], []), 0)
  else
    match callModel with
    | .error _ => ((company, [], []), 1)
    | .ok rawOutput =>
      let data := match decode rawOutput with
        | .ok d => d
        | .error _ => .obj [("company", .str company), ("advantages", .arr [])]
      let outcome : Except Unit (List KARow × List Json) := do
        let advs0 ← pyDictGet data "advantages" (.arr [])
        let advs ← pyIter advs0
        let rows ← flattenAdvantages advs
        .ok (rows, advs)
      match outcome with
      | .ok (rows, advs) => ((company, rows, advs), 1)
      | .error _ => ((company, [], []), 1)

/-! # Theorems -/

/-! ## Dispatcher coverage and order determinism (claims C1, C2) -/

theorem assign_archetype_fst (llm : String → Except Unit String) (text : String) (idx : Nat) :
    (assign_archetype llm text idx).1 = idx := by
  unfold assign_archetype
  split
  · rfl
  · split
    · rfl
    · split <;> rfl

theorem workerResult_fst (llm : String → Except Unit String) (ff : Nat → Bool)
    (idx : Nat) (text : String) : (workerResult llm ff idx text).1 = idx := by
  unfold workerResult
  split
  · rfl
  · exact assign_archetype_fst llm text idx

theorem dispatchFrom_length (llm : String → Except Unit String) (ff : Nat → Bool)
    (i : Nat) (ts : List String) : (dispatchFrom llm ff i ts).length = ts.length := by
  induction ts generalizing i with
  | nil => rfl
  | cons t ts ih => simpa [dispatchFrom] using ih (i + 1)

theorem dispatchFrom_map_fst (llm : String → Except Unit String) (ff : Nat → Bool)
    (i : Nat) (ts : List String) :
    (dispatchFrom llm ff i ts).map Prod.fst = List.range' i ts.length := by
  induction ts generalizing i with
  | nil => rfl
  | cons t ts ih =>
    show (workerResult llm ff i t).1 :: (dispatchFrom llm ff (i + 1) ts).map Prod.fst = _
    rw [workerResult_fst, ih]
    rfl

theorem dispatchFrom_fst_le (llm : String → Except Unit String) (ff : Nat → Bool)
    (i : Nat) (ts : List String) : ∀ p ∈ dispatchFrom llm ff i ts, i ≤ p.1 := by
  induction ts generalizing i with
  | nil => intro p hp; cases hp
  | cons t ts ih =>
    intro p hp
    cases hp with
    | head => rw [workerResult_fst]
    | tail _ h => exact Nat.le_trans (Nat.le_succ i) (ih (i + 1) p h)

theorem dispatchFrom_pairwise (llm : String → Except Unit String) (ff : Nat → Bool)
    (i : Nat) (ts : List String) : (dispatchFrom llm ff i ts).Pairwise keyLt := by
  induction ts generalizing i with
  | nil => exact List.Pairwise.nil
  | cons t ts ih =>
    refine List.Pairwise.cons ?_ (ih (i + 1))
    intro p hp
    have hle := dispatchFrom_fst_le llm ff (i + 1) ts p hp
    show (workerResult llm ff i t).1 < p.1
    rw [workerResult_fst]
    omega

/-- Sorting any permutation of a strictly key-sorted list recovers that
list: the crux of completion-order independence. -/
theorem sortByIdx_eq_of_perm {l r : List (Nat × String)} (h : l.Perm r)
    (hr : r.Pairwise keyLt) : sortByIdx l = r := by
  have hperm : (sortByIdx l).Perm r := (List.perm_insertionSort keyLe l).trans h
  have hs : List.Sorted keyLe (sortByIdx l) := List.sorted_insertionSort keyLe l
  have hrn : (r.map Prod.fst).Pairwise (· < ·) := List.pairwise_map.mpr hr
  have hnr : (r.map Prod.fst).Nodup := hrn.imp (fun hab => Nat.ne_of_lt hab)
  have hnl : ((sortByIdx l).map Prod.fst).Nodup := ((hperm.map Prod.fst).nodup_iff).mpr hnr
  have hne : (sortByIdx l).Pairwise (fun a b : Nat × String => a.1 ≠ b.1) :=
    List.pairwise_map.mp hnl
  have hlt : List.Sorted keyLt (sortByIdx l) :=
    (hs.and hne).imp (fun hab => Nat.lt_of_le_of_ne hab.1 hab.2)
  exact List.eq_of_perm_of_sorted hperm hlt hr

/-- Claim C1: for every input dataframe and text column, the batch
dispatcher of `run_compos_analysis` collects exactly one terminal result
per submitted row — over any completion order and any per-row LLM or
future failure, the sorted results list has the input column's length and
its stable indices are exactly `0, 1, …, n-1`, each once. -/
theorem c1_dispatcher_total_coverage (df : DataFrame) (text_column : String)
    (llm : String → Except Unit String) (futureFails : Nat → Bool)
    (completed : List (Nat × String))
    (hcompl : completed.Perm (dispatchResults llm futureFails (colValues df text_column))) :
    (sortByIdx completed).length = (colValues df text_column).length ∧
    (sortByIdx completed).map Prod.fst = List.range (colValues df text_column).length := by
  have heq : sortByIdx completed = dispatchResults llm futureFails (colValues df text_column) :=
    sortByIdx_eq_of_perm hcompl (dispatchFrom_pairwise llm futureFails 0 _)
  refine ⟨?_, ?_⟩
  · rw [heq]
    exact dispatchFrom_length llm futureFails 0 _
  · rw [heq, List.range_eq_range']
    exact dispatchFrom_map_fst llm futureFails 0 _

theorem c1_witness :
    ([(1, "No Content"), (0, "The Expert")] : List (Nat × String)).Perm
      (dispatchResults (fun _ => .ok "Top Archetype: The Expert") (fun _ => false)
        (colValues [("text", ["hi", ""])] "text")) ∧
    (sortByIdx [(1, "No Content"), (0, "The Expert")]).length =
      (colValues [("text", ["hi", ""])] "text").length ∧
    (sortByIdx [(1, "No Content"), (0, "The Expert")]).map Prod.fst =
      List.range (colValues [("text", ["hi", ""])] "text").length := by
  refine ⟨by decide, ?_⟩
  exact c1_dispatcher_total_coverage [("text", ["hi", ""])] "text"
    (fun _ => .ok "Top Archetype: The Expert") (fun _ => false)
    [(1, "No Content"), (0, "The Expert")] (by decide)

theorem hasCol_cons (c : String × List String) (rest : DataFrame) (name : String) :
    hasCol (c :: rest) name = (decide (c.1 = name) || hasCol rest name) := rfl

theorem colValues_setCol (df : DataFrame) (name : String) (vals : List String) :
    colValues (setCol df name vals) name = vals := by
  unfold setCol
  split
  case isTrue h =>
    unfold colValues
    induction df with
    | nil => simp [hasCol] at h
    | cons c rest ih =>
      by_cases hc : c.1 = name
      · simp [List.find?, hc]
      · rw [hasCol_cons] at h
        have hrest : hasCol rest name := by simpa [hc] using h
        simpa [List.find?, hc] using ih hrest
  case isFalse h =>
    unfold colValues
    induction df with
    | nil => simp [List.find?]
    | cons c rest ih =>
      rw [hasCol_cons] at h
      have hc : ¬c.1 = name := by
        intro hcc
        exact h (by simp [hcc])
      have hrest : ¬hasCol rest name = true := by
        intro hcc
        exact h (by simp [hcc])
      simpa [List.find?, hc] using ih hrest

/-- Claim C2: the dispatcher's output is independent of completion order —
any two completion-order shufflings of the per-row results yield the same
`"Top Archetype"` column, and that column lists the per-row results in
input identity order. -/
theorem c2_order_determinism (df : DataFrame) (text_column : String)
    (llm : String → Except Unit String) (futureFails : Nat → Bool)
    (completedA completedB : List (Nat × String))
    (hA : completedA.Perm (dispatchResults llm futureFails (colValues df text_column)))
    (hB : completedB.Perm (dispatchResults llm futureFails (colValues df text_column))) :
    colValues (run_compos_analysis df completedA) "Top Archetype" =
      colValues (run_compos_analysis df completedB) "Top Archetype" ∧
    colValues (run_compos_analysis df completedA) "Top Archetype" =
      (dispatchResults llm futureFails (colValues df text_column)).map Prod.snd := by
  have heqA : sortByIdx completedA = dispatchResults llm futureFails (colValues df text_column) :=
    sortByIdx_eq_of_perm hA (dispatchFrom_pairwise llm futureFails 0 _)
  have heqB : sortByIdx completedB = dispatchResults llm futureFails (colValues df text_column) :=
    sortByIdx_eq_of_perm hB (dispatchFrom_pairwise llm futureFails 0 _)
  unfold run_compos_analysis
  rw [colValues_setCol, colValues_setCol, heqA, heqB]
  exact ⟨rfl, rfl⟩

theorem c2_witness :
    ([(1, "No Content"), (0, "The Expert")] : List (Nat × String)).Perm
      (dispatchResults (fun _ => .ok "Top Archetype: The Expert") (fun _ => false)
        (colValues [("text", ["hi", ""])] "text")) ∧
    ([(0, "The Expert"), (1, "No Content")] : List (Nat × String)).Perm
      (dispatchResults (fun _ => .ok "Top Archetype: The Expert") (fun _ => false)
        (colValues [("text", ["hi", ""])] "text")) ∧
    colValues (run_compos_analysis [("text", ["hi", ""])] [(1, "No Content"), (0, "The Expert")])
        "Top Archetype" =
      colValues (run_compos_analysis [("text", ["hi", ""])] [(0, "The Expert"), (1, "No Content")])
        "Top Archetype" ∧
    colValues (run_compos_analysis [("text", ["hi", ""])] [(1, "No Content"), (0, "The Expert")])
        "Top Archetype" =
      (dispatchResults (fun _ => .ok "Top Archetype: The Expert") (fun _ => false)
        (colValues [("text", ["hi", ""])] "text")).map Prod.snd := by
  refine ⟨by decide, by decide, ?_⟩
  exact c2_order_determinism [("text", ["hi", ""])] "text"
    (fun _ => .ok "Top Archetype: The Expert") (fun _ => false)
    [(1, "No Content"), (0, "The Expert")] [(0, "The Expert"), (1, "No Content")]
    (by decide) (by decide)

/-! ## Frame property of `run_compos_analysis` (claim C10) -/

theorem colValues_append_ne (df : DataFrame) (name k : String) (vs : List String)
    (h : name ≠ k) : colValues (df ++ [(k, vs)]) name = colValues df name := by
  unfold colValues
  induction df with
  | nil => simp [List.find?, Ne.symm h]
  | cons c rest ih =>
    by_cases hc : c.1 = name
    · simp [List.find?, hc]
    · simpa [List.find?, hc] using ih

/-- Claim C10, counterexample: on an input dataframe that already carries a
`"Top Archetype"` column, `run_compos_analysis` does not append a new
column — pandas assignment overwrites the existing one in place, so the
output has the same column count and an original column's values change. -/
theorem c10_counterexample :
    run_compos_analysis [("text", ["hello"]), ("Top Archetype", ["Old"])]
        (dispatchResults (fun _ => .ok "Top Archetype: X") (fun _ => false)
          (colValues [("text", ["hello"]), ("Top Archetype", ["Old"])] "text")) =
      [("text", ["hello"]), ("Top Archetype", ["X"])] ∧
    (run_compos_analysis [("text", ["hello"]), ("Top Archetype", ["Old"])]
        (dispatchResults (fun _ => .ok "Top Archetype: X") (fun _ => false)
          (colValues [("text", ["hello"]), ("Top Archetype", ["Old"])] "text"))).length = 2 ∧
    colValues (run_compos_analysis [("text", ["hello"]), ("Top Archetype", ["Old"])]
        (dispatchResults (fun _ => .ok "Top Archetype: X") (fun _ => false)
          (colValues [("text", ["hello"]), ("Top Archetype", ["Old"])] "text")))
        "Top Archetype" ≠
      colValues [("text", ["hello"]), ("Top Archetype", ["Old"])] "Top Archetype" := by
  exact ⟨by decide, by decide, by decide⟩

/-- Claim C10 (amended): `run_compos_analysis` works on a copy (the pure
model returns a fresh value, the input is untouched), and provided the
input has no `"Top Archetype"` column already, the output is exactly the
input with one appended `"Top Archetype"` column — all original columns,
their values and their order unchanged.  (When the column already exists it
is overwritten in place instead, per the counterexample.) -/
theorem c10_frame_append (df : DataFrame) (completed : List (Nat × String))
    (h : hasCol df "Top Archetype" = false) :
    run_compos_analysis df completed =
      df ++ [("Top Archetype", (sortByIdx completed).map Prod.snd)] ∧
    (run_compos_analysis df completed).map Prod.fst = df.map Prod.fst ++ ["Top Archetype"] ∧
    (∀ name, name ≠ "Top Archetype" →
      colValues (run_compos_analysis df completed) name = colValues df name) := by
  have hrun : run_compos_analysis df completed =
      df ++ [("Top Archetype", (sortByIdx completed).map Prod.snd)] := by
    unfold run_compos_analysis setCol
    rw [if_neg (by simp [h])]
  refine ⟨hrun, ?_, ?_⟩
  · rw [hrun]; simp
  · intro name hn
    rw [hrun]
    exact colValues_append_ne df name _ _ hn

theorem c10_witness :
    hasCol [("text", ["hi"])] "Top Archetype" = false ∧
    (run_compos_analysis [("text", ["hi"])] [(0, "X")] =
      [("text", ["hi"])] ++ [("Top Archetype", (sortByIdx [(0, "X")]).map Prod.snd)] ∧
    (run_compos_analysis [("text", ["hi"])] [(0, "X")]).map Prod.fst =
      [("text", ["hi"])].map Prod.fst ++ ["Top Archetype"] ∧
    (∀ name, name ≠ "Top Archetype" →
      colValues (run_compos_analysis [("text", ["hi"])] [(0, "X")]) name =
        colValues [("text", ["hi"])] name)) := by
  refine ⟨by decide, ?_⟩
  exact c10_frame_append [("text", ["hi"])] [(0, "X")] (by decide)

/-! ## Worker-boundary error containment (claim C5) -/

/-- Claim C5: every failure inside an annotation worker is caught at the
worker boundary and converted to a terminal result value — an LLM-call
exception or a response-handling exception in `assign_archetype` yields the
label `"Error"`, and an exception in `analyze_individual_post` yields the
full set of neutral scores; the workers are total functions, so no
exception propagates to the caller. -/
theorem c5_worker_error_containment
    (llmRaise llmBadResp llmRaise2 : String → Except Unit String)
    (text : String) (idx : Nat) (postContent persona out : String)
    (hnc : isNoContentText text = false)
    (h1 : llmRaise text = .error ())
    (h2 : llmBadResp text = .ok out)
    (hparse : parseTopArchetype out = .error ())
    (h3 : llmRaise2 postContent = .error ()) :
    assign_archetype llmRaise text idx = (idx, "Error") ∧
    assign_archetype llmBadResp text idx = (idx, "Error") ∧
    analyze_individual_post llmRaise2 postContent persona =
      (personaColumns persona).map (fun col => (col, 4)) := by
  refine ⟨?_, ?_, ?_⟩
  · unfold assign_archetype
    rw [h1]
    simp [hnc]
  · unfold assign_archetype
    rw [h2]
    simp [hnc, hparse]
  · unfold analyze_individual_post
    rw [h3]

theorem c5_witness :
    isNoContentText "hello" = false ∧
    (fun _ : String => (Except.error () : Except Unit String)) "hello" = .error () ∧
    (fun _ : String => (Except.ok "Top Archetype is missing a colon" : Except Unit String))
      "hello" = .ok "Top Archetype is missing a colon" ∧
    parseTopArchetype "Top Archetype is missing a colon" = .error () ∧
    (assign_archetype (fun _ => .error ()) "hello" 7 = (7, "Error") ∧
     assign_archetype (fun _ => .ok "Top Archetype is missing a colon") "hello" 7 =
       (7, "Error") ∧
     analyze_individual_post (fun _ => .error ()) "a post" "Families & Household Shoppers" =
       (personaColumns "Families & Household Shoppers").map (fun col => (col, 4))) := by
  refine ⟨by decide, rfl, rfl, rfl, ?_⟩
  exact c5_worker_error_containment (fun _ => .error ())
    (fun _ => .ok "Top Archetype is missing a colon") (fun _ => .error ())
    "hello" 7 "a post" "Families & Household Shoppers" "Top Archetype is missing a colon"
    (by decide) rfl rfl rfl rfl

/-! ## JSON repair heuristic for unterminated strings (claim C3) -/

/-- Claim C3: whenever the direct decode of a raw response fails with an
unterminated-string error and a complete JSON object ends at the last
closing brace before the error offset (the decode of that prefix
succeeds), `chat_json` returns that decoded object — the content before
the truncation point — rather than a parse failure. -/
theorem c3_unterminated_string_repair (decode : JsonDecoder) (raw : String)
    (pos lastBrace : Nat) (v : Json)
    (hfail : decode raw = .error (.unterminatedString pos))
    (hbrace : lastIdxOf (strTake raw pos) rbrace = some lastBrace)
    (hok : decode (strTake (strTake raw pos) (lastBrace + 1)) = .ok v) :
    chat_json_parse decode raw = v := by
  unfold chat_json_parse
  rw [hfail]
  simp only [hbrace, hok, exceptToOption, Option.getD_some]

/-- A concrete decoder boundary for the C3 witness: on the full raw text it
reports an unterminated string starting at character 15; on the repaired
prefix it succeeds. -/
def demoRaw : String := "\x7b\"a\": 1\x7d, \"b\": \"xy"

def demoDecode : JsonDecoder := fun s =>
  if s = "\x7b\"a\": 1\x7d" then .ok (.obj [("a", .num 1)])
  else if s = demoRaw then .error (.unterminatedString 15)
  else .error .other

theorem c3_witness :
    demoDecode demoRaw = .error (.unterminatedString 15) ∧
    lastIdxOf (strTake demoRaw 15) rbrace = some 7 ∧
    demoDecode (strTake (strTake demoRaw 15) 8) = .ok (.obj [("a", .num 1)]) ∧
    chat_json_parse demoDecode demoRaw = .obj [("a", .num 1)] := by
  refine ⟨rfl, by decide, rfl, ?_⟩
  exact c3_unterminated_string_repair demoDecode demoRaw 15 7 (.obj [("a", .num 1)])
    rfl (by decide) rfl

/-! ## Minimum-volume gate (claim C4) -/

/-- Claim C4: for every grouped entity whose item count is strictly below
the configured minimum-volume threshold, the dispatcher short-circuits to a
skip result and performs zero LLM calls on the group's behalf — in
`key_advantages.process_company` the company yields empty results with call
count 0, and in `creativity_analysis.process_brand` the brand yields a
skipped result with call count 0. -/
theorem c4_min_volume_gate (callModel : Except Unit String) (decodeA decodeB : JsonDecoder)
    (company : String) (groupDf : List Item)
    (call : Nat → Except Unit String) (brand : String) (g : List Item)
    (hA : groupDf.length < MIN_ADS_FOR_ANALYSIS)
    (hB : g.length < MIN_ADS_FOR_ANALYSIS) :
    process_company callModel decodeA company groupDf = ((company, [], []), 0) ∧
    (process_brand call decodeB brand g).1.skipped = true ∧
    (process_brand call decodeB brand g).1.rows = [] ∧
    (process_brand call decodeB brand g).2 = 0 := by
  unfold process_company process_brand
  rw [if_pos hA, if_pos hB]
  exact ⟨rfl, rfl, rfl, rfl⟩

theorem c4_witness :
    ([⟨"only one ad", none⟩] : List Item).length < MIN_ADS_FOR_ANALYSIS ∧
    ([⟨"p1", some 3⟩, ⟨"p2", none⟩] : List Item).length < MIN_ADS_FOR_ANALYSIS ∧
    (process_company (.ok "ignored") (fun _ => .error .other) "Acme"
        [⟨"only one ad", none⟩] = (("Acme", [], []), 0) ∧
     (process_brand (fun _ => .ok "ignored") (fun _ => .error .other) "Acme"
        [⟨"p1", some 3⟩, ⟨"p2", none⟩]).1.skipped = true ∧
     (process_brand (fun _ => .ok "ignored") (fun _ => .error .other) "Acme"
        [⟨"p1", some 3⟩, ⟨"p2", none⟩]).1.rows = [] ∧
     (process_brand (fun _ => .ok "ignored") (fun _ => .error .other) "Acme"
        [⟨"p1", some 3⟩, ⟨"p2", none⟩]).2 = 0) := by
  refine ⟨by decide, by decide, ?_⟩
  exact c4_min_volume_gate (.ok "ignored") (fun _ => .error .other) (fun _ => .error .other)
    "Acme" [⟨"only one ad", none⟩] (fun _ => .ok "ignored") "Acme"
    [⟨"p1", some 3⟩, ⟨"p2", none⟩] (by decide) (by decide)

/-! ## Line-oriented affinity parsing (claims C7, C8) -/

theorem find_replace_self (k : String) (v : Nat) :
    ∀ sc : List (String × Nat), sc.any (fun p => decide (p.1 = k)) = true →
      List.find? (fun p => decide (p.1 = k))
        (sc.map (fun p => if p.1 = k then (k, v) else p)) = some (k, v) := by
  intro sc
  induction sc with
  | nil => intro h; simp at h
  | cons p rest ih =>
    intro h
    rw [List.map_cons]
    by_cases hp : p.1 = k
    · simp [List.find?, hp]
    · rw [List.any_cons] at h
      have hrest : rest.any (fun p => decide (p.1 = k)) = true := by simpa [hp] using h
      simpa [List.find?, hp] using ih hrest

theorem find_append_single_self (k : String) (v : Nat) :
    ∀ sc : List (String × Nat), sc.any (fun p => decide (p.1 = k)) = false →
      List.find? (fun p => decide (p.1 = k)) (sc ++ [(k, v)]) = some (k, v) := by
  intro sc
  induction sc with
  | nil => intro _; simp [List.find?]
  | cons p rest ih =>
    intro h
    rw [List.any_cons] at h
    have hp : ¬p.1 = k := by
      intro hc
      simp [hc] at h
    have hrest : rest.any (fun p => decide (p.1 = k)) = false := by simpa [hp] using h
    simpa [List.find?, hp] using ih hrest

theorem dictLookup_dictInsert_self (sc : List (String × Nat)) (k : String) (v : Nat) :
    dictLookup (dictInsert sc k v) k = some v := by
  unfold dictInsert
  split
  case isTrue h =>
    unfold dictLookup
    rw [find_replace_self k v sc h]
  case isFalse h =>
    unfold dictLookup
    rw [find_append_single_self k v sc (by simp only [Bool.not_eq_true] at h; exact h)]

theorem find_replace_ne (k col : String) (v : Nat) (h : k ≠ col) :
    ∀ sc : List (String × Nat),
      List.find? (fun p => decide (p.1 = col))
        (sc.map (fun p => if p.1 = k then (k, v) else p)) =
      List.find? (fun p => decide (p.1 = col)) sc := by
  intro sc
  induction sc with
  | nil => rfl
  | cons p rest ih =>
    rw [List.map_cons]
    by_cases hp : p.1 = k
    · have hpc : decide (p.1 = col) = false :=
        decide_eq_false (fun hc => h (hp.symm.trans hc))
      have hkc : decide ((k, v).1 = col) = false := decide_eq_false h
      rw [if_pos hp, List.find?_cons, List.find?_cons]
      simp only [hkc, hpc]
      exact ih
    · rw [if_neg hp, List.find?_cons, List.find?_cons]
      by_cases hpc : p.1 = col
      · simp only [decide_eq_true hpc]
      · simp only [decide_eq_false hpc]
        exact ih

theorem find_append_single_ne (k col : String) (v : Nat) (h : k ≠ col) :
    ∀ sc : List (String × Nat),
      List.find? (fun p => decide (p.1 = col)) (sc ++ [(k, v)]) =
      List.find? (fun p => decide (p.1 = col)) sc := by
  intro sc
  induction sc with
  | nil => simp [List.find?, h]
  | cons p rest ih =>
    by_cases hpc : p.1 = col
    · simp [List.find?, hpc]
    · simpa [List.find?, hpc] using ih

theorem dictLookup_dictInsert_ne (sc : List (String × Nat)) (k col : String) (v : Nat)
    (h : k ≠ col) : dictLookup (dictInsert sc k v) col = dictLookup sc col := by
  unfold dictInsert
  split
  case isTrue _ =>
    unfold dictLookup
    rw [find_replace_ne k col v h sc]
  case isFalse _ =>
    unfold dictLookup
    rw [find_append_single_ne k col v h sc]

/-- Unrolling one column of `processLine`'s fold. -/
theorem processLine_step (sc : List (String × Nat)) (line : String) (c : String)
    (cs : List String) :
    processLine sc line (c :: cs) =
      processLine (if lineMatchesCol line c then
          match extractScore line with
          | some s => dictInsert sc c s
          | none => sc
        else sc) line cs := rfl

/-- A line that does not match `col` leaves `col`'s entry unchanged. -/
theorem processLine_not_matching (line : String) (col : String)
    (h : lineMatchesCol line col = false) :
    ∀ (columns : List String) (sc : List (String × Nat)),
      dictLookup (processLine sc line columns) col = dictLookup sc col := by
  intro columns
  induction columns with
  | nil => intro sc; rfl
  | cons c cs ih =>
    intro sc
    rw [processLine_step]
    rw [ih]
    by_cases hc : c = col
    · subst hc
      simp [h]
    · by_cases hm : lineMatchesCol line c
      · simp only [hm, if_true]
        cases hs : extractScore line with
        | some s => exact dictLookup_dictInsert_ne sc c col s hc
        | none => rfl
      · simp [hm]

/-- Once `col` holds the value extracted from the current line, scanning
more columns for that same line cannot change it. -/
theorem processLine_preserves (line : String) (s : Nat)
    (hscore : extractScore line = some s) :
    ∀ (columns : List String) (sc : List (String × Nat)) (col : String),
      dictLookup sc col = some s →
      dictLookup (processLine sc line columns) col = some s := by
  intro columns
  induction columns with
  | nil => intro sc col h; exact h
  | cons c cs ih =>
    intro sc col h
    rw [processLine_step]
    apply ih
    by_cases hm : lineMatchesCol line c
    · simp only [hm, if_true, hscore]
      by_cases hc : c = col
      · subst hc; exact dictLookup_dictInsert_self sc c s
      · rw [dictLookup_dictInsert_ne sc c col s hc]; exact h
    · simpa [hm] using h

/-- A line matching `col` with an in-range score assigns that score to
`col`, regardless of the previous dictionary contents. -/
theorem processLine_sets (line : String) (s : Nat) (col : String)
    (hscore : extractScore line = some s) (hmatch : lineMatchesCol line col = true) :
    ∀ (columns : List String) (sc : List (String × Nat)), col ∈ columns →
      dictLookup (processLine sc line columns) col = some s := by
  intro columns
  induction columns with
  | nil => intro sc h; cases h
  | cons c cs ih =>
    intro sc hmem
    rw [processLine_step]
    rcases List.mem_cons.mp hmem with hc | hc
    · subst hc
      have hstep : (if lineMatchesCol line col then
          match extractScore line with
          | some s => dictInsert sc col s
          | none => sc
        else sc) = dictInsert sc col s := by simp [hmatch, hscore]
      rw [hstep]
      exact processLine_preserves line s hscore cs _ col
        (dictLookup_dictInsert_self sc col s)
    · exact ih _ hc

theorem foldLines_no_match (columns : List String) (col : String) :
    ∀ (lines : List String) (sc : List (String × Nat)),
      (∀ line ∈ lines, lineMatchesCol (pyStrip line) col = false) →
      dictLookup (lines.foldl (fun sc line => processLine sc (pyStrip line) columns) sc) col =
        dictLookup sc col := by
  intro lines
  induction lines with
  | nil => intro sc _; rfl
  | cons l ls ih =>
    intro sc h
    rw [List.foldl_cons]
    rw [ih _ (fun x hx => h x (List.mem_cons_of_mem _ hx))]
    exact processLine_not_matching (pyStrip l) col (h l (List.mem_cons_self _ _)) columns sc

theorem map_fst_pairing (f : String → Nat) :
    ∀ cols : List String, (cols.map (fun c => (c, f c))).map Prod.fst = cols := by
  intro cols
  induction cols with
  | nil => rfl
  | cons c cs ih => simp [ih]

theorem dictLookup_map_self (f : String → Nat) (col : String) :
    ∀ (cols : List String), col ∈ cols →
      dictLookup (cols.map (fun c => (c, f c))) col = some (f col) := by
  intro cols
  induction cols with
  | nil => intro h; cases h
  | cons c cs ih =>
    intro h
    rcases List.mem_cons.mp h with hc | hc
    · subst hc; simp [dictLookup, List.find?]
    · by_cases hcc : c = col
      · subst hcc; simp [dictLookup, List.find?]
      · simpa [dictLookup, List.find?, hcc] using ih hc

/-- Claim C7: if one of a persona's expected score labels matches no line
of the response, `parse_affinity_response` still succeeds — it returns one
score per expected column and fills the missing dimension with the neutral
default 4. -/
theorem c7_neutral_default (responseText persona col : String)
    (hcol : col ∈ personaColumns persona)
    (hmiss : ∀ line ∈ pySplitlines responseText,
      lineMatchesCol (pyStrip line) col = false) :
    (parse_affinity_response responseText persona).map Prod.fst = personaColumns persona ∧
    (∀ c ∈ personaColumns persona,
      ∃ s, dictLookup (parse_affinity_response responseText persona) c = some s) ∧
    dictLookup (parse_affinity_response responseText persona) col = some 4 := by
  unfold parse_affinity_response
  refine ⟨?_, ?_, ?_⟩
  · exact map_fst_pairing _ _
  · intro c hc
    exact ⟨_, dictLookup_map_self _ c _ hc⟩
  · rw [dictLookup_map_self _ col _ hcol]
    rw [foldLines_no_match _ col _ [] hmiss]
    rfl

theorem c7_witness :
    "Family_Household_Discounts" ∈ personaColumns "Families & Household Shoppers" ∧
    (∀ line ∈ pySplitlines "Kids Products: 5\nKids Events: 6",
      lineMatchesCol (pyStrip line) "Family_Household_Discounts" = false) ∧
    ((parse_affinity_response "Kids Products: 5\nKids Events: 6"
        "Families & Household Shoppers").map Prod.fst =
      personaColumns "Families & Household Shoppers" ∧
    (∀ c ∈ personaColumns "Families & Household Shoppers",
      ∃ s, dictLookup (parse_affinity_response "Kids Products: 5\nKids Events: 6"
        "Families & Household Shoppers") c = some s) ∧
    dictLookup (parse_affinity_response "Kids Products: 5\nKids Events: 6"
      "Families & Household Shoppers") "Family_Household_Discounts" = some 4) := by
  refine ⟨by decide, by decide, ?_⟩
  exact c7_neutral_default "Kids Products: 5\nKids Events: 6"
    "Families & Household Shoppers" "Family_Household_Discounts" (by decide) (by decide)

theorem find_first_match {α : Type} (p : α → Bool) (line : α) :
    ∀ (pre : List α) (post : List α), (∀ l ∈ pre, p l = false) → p line = true →
      (pre ++ line :: post).find? p = some line := by
  intro pre post
  induction pre with
  | nil =>
    intro _ hl
    simp [List.find?_cons, hl]
  | cons x xs ih =>
    intro hpre hl
    rw [List.cons_append, List.find?_cons]
    simp only [hpre x (List.mem_cons_self _ _)]
    exact ih (fun l hlmem => hpre l (List.mem_cons_of_mem _ hlmem)) hl

/-- Claim C8, counterexample: for a response whose two lines match the same
expected label with different in-range values, `parse_affinity_response`
does not keep the first matching line's value — the later matching line
overwrites it, so the parser returns 6 although the first matching line
"Comfort: 2" carries score 2. -/
theorem c8_counterexample :
    lineMatchesCol "Comfort: 2" "Experience_Accessibility_Comfort" = true ∧
    lineMatchesCol "Comfort: 6" "Experience_Accessibility_Comfort" = true ∧
    extractScore "Comfort: 2" = some 2 ∧
    pySplitlines "Comfort: 2\nComfort: 6" = ["Comfort: 2", "Comfort: 6"] ∧
    dictLookup (parse_affinity_response "Comfort: 2\nComfort: 6"
      "Shopping Experience & Mall Environment") "Experience_Accessibility_Comfort" ≠
      some 2 ∧
    dictLookup (parse_affinity_response "Comfort: 2\nComfort: 6"
      "Shopping Experience & Mall Environment") "Experience_Accessibility_Comfort" =
      some 6 := by
  exact ⟨by decide, by decide, by decide, by decide, by decide, by decide⟩

/-- Claim C8 (amended): the two line-oriented parsers resolve repeated
labels differently.  In `assign_archetype`'s scan the first line containing
"Top Archetype" wins (later lines cannot change the result), while in
`parse_affinity_response` each matching line overwrites the label's entry,
so the last matching line with an in-range score determines the value:
for any response whose lines split as `ls ++ lastMatch :: tailLines` with
`lastMatch` matching the label and no line after it matching, the
returned score is `lastMatch`'s, whatever matching lines `ls` holds. -/
theorem c8_first_vs_last_match
    (output : String) (pre post : List String) (line : String)
    (hsplit : pySplitlines output = pre ++ line :: post)
    (hpre : ∀ l ∈ pre, containsSub l "Top Archetype" = false)
    (hline : containsSub line "Top Archetype" = true)
    (responseText persona : String) (ls tailLines : List String) (lastMatch : String)
    (hsplit2 : pySplitlines responseText = ls ++ lastMatch :: tailLines)
    (col : String) (hcol : col ∈ personaColumns persona) (s : Nat)
    (hmatch : lineMatchesCol (pyStrip lastMatch) col = true)
    (hscore : extractScore (pyStrip lastMatch) = some s)
    (htail : ∀ l ∈ tailLines, lineMatchesCol (pyStrip l) col = false) :
    parseTopArchetype output =
      (match splitOnceAfter line ':' with
       | none => .error ()
       | some v => .ok (some (pyStrip v))) ∧
    dictLookup (parse_affinity_response responseText persona) col = some s := by
  constructor
  · unfold parseTopArchetype
    rw [hsplit, find_first_match _ line pre post hpre hline]
  · unfold parse_affinity_response
    rw [dictLookup_map_self _ col _ hcol]
    rw [hsplit2, List.foldl_append, List.foldl_cons]
    rw [foldLines_no_match _ col tailLines _ htail]
    rw [processLine_sets (pyStrip lastMatch) s col hscore hmatch _ _ hcol]
    rfl

theorem c8_witness :
    pySplitlines "noise\nTop Archetype: The Mentor\nTop Archetype: Wrong" =
      ["noise"] ++ "Top Archetype: The Mentor" :: ["Top Archetype: Wrong"] ∧
    (∀ l ∈ ["noise"], containsSub l "Top Archetype" = false) ∧
    containsSub "Top Archetype: The Mentor" "Top Archetype" = true ∧
    pySplitlines "Comfort: 2\nComfort: 6\nAmbience Design: 3" =
      ["Comfort: 2"] ++ "Comfort: 6" :: ["Ambience Design: 3"] ∧
    "Experience_Accessibility_Comfort" ∈
      personaColumns "Shopping Experience & Mall Environment" ∧
    lineMatchesCol (pyStrip "Comfort: 6") "Experience_Accessibility_Comfort" = true ∧
    extractScore (pyStrip "Comfort: 6") = some 6 ∧
    (∀ l ∈ ["Ambience Design: 3"],
      lineMatchesCol (pyStrip l) "Experience_Accessibility_Comfort" = false) ∧
    (parseTopArchetype "noise\nTop Archetype: The Mentor\nTop Archetype: Wrong" =
      (match splitOnceAfter "Top Archetype: The Mentor" ':' with
       | none => .error ()
       | some v => .ok (some (pyStrip v))) ∧
    dictLookup (parse_affinity_response "Comfort: 2\nComfort: 6\nAmbience Design: 3"
      "Shopping Experience & Mall Environment") "Experience_Accessibility_Comfort" =
      some 6) := by
  refine ⟨by decide, by decide, by decide, by decide, by decide, by decide, by decide,
    by decide, ?_⟩
  exact c8_first_vs_last_match
    "noise\nTop Archetype: The Mentor\nTop Archetype: Wrong"
    ["noise"] ["Top Archetype: Wrong"] "Top Archetype: The Mentor" (by decide)
    (by decide) (by decide)
    "Comfort: 2\nComfort: 6\nAmbience Design: 3"
    "Shopping Experience & Mall Environment"
    ["Comfort: 2"] ["Ambience Design: 3"] "Comfort: 6" (by decide)
    "Experience_Accessibility_Comfort" (by decide) 6 (by decide) (by decide) (by decide)

/-! ## Prompt-text length cap (claim C9) -/

theorem length_mk (cs : List Char) : (String.mk cs).length = cs.length := rfl

theorem strTake_length (s : String) (n : Nat) : (strTake s n).length = min n s.length := by
  unfold strTake
  rw [length_mk, List.length_take]
  rfl

set_option maxRecDepth 100000 in
/-- Claim C9, counterexample: a normalized text of 1001 non-whitespace
characters is embedded as a string of length 1001 — `truncate` appends an
ellipsis beyond the 1000-character ceiling, so the embedded string can
exceed the claimed cap. -/
theorem c9_counterexample :
    MAX_CHARS_PER_ITEM <
      (clean_text (String.mk (List.replicate 1001 'a'))).length := by
  decide

/-- Claim C9 (amended): every text item embedded in a per-item prompt is
first normalized (`normalize_text`) and then truncated, and the embedded
string's length is at most 1001 characters: the fixed 1000-character
ceiling plus the single appended ellipsis character when truncation
happens.  (The claimed bound of exactly 1000 fails, per the
counterexample.) -/
theorem c9_length_cap (x : String) :
    (clean_text x).length ≤ MAX_CHARS_PER_ITEM + 1 := by
  unfold clean_text truncate
  split
  · simp
  case isFalse h =>
    split
    case isTrue hle => exact Nat.le_trans hle (Nat.le_succ _)
    case isFalse hgt =>
      rw [String.length_append, strTake_length]
      have h1 : (String.mk [ellipsisChar]).length = 1 := rfl
      rw [h1]
      have h2 : min MAX_CHARS_PER_ITEM (normalize_text x).length = MAX_CHARS_PER_ITEM := by
        apply Nat.min_eq_left
        exact Nat.le_of_lt (Nat.lt_of_not_le hgt)
      rw [h2]

/-! ## Deterministic cross-brand ranking fallback (claim C6) -/

theorem sortedUnique_nodup (xs : List String) : (sortedUnique xs).Nodup :=
  ((List.perm_insertionSort _ xs.dedup).nodup_iff).mpr (List.nodup_dedup xs)

theorem sortedUnique_sorted_le (xs : List String) :
    List.Sorted (· ≤ ·) (sortedUnique xs) :=
  List.sorted_insertionSort _ _

theorem sortedUnique_sorted_lt (xs : List String) :
    List.Sorted (· < ·) (sortedUnique xs) :=
  ((sortedUnique_sorted_le xs).and (sortedUnique_nodup xs)).imp
    (fun h => lt_of_le_of_ne h.1 h.2)

theorem sortedUnique_mem (xs : List String) (b : String) :
    b ∈ sortedUnique xs ↔ b ∈ xs :=
  ((List.perm_insertionSort _ _).mem_iff).trans List.mem_dedup

theorem fallbackFrom_map_brand (errMsg : String) :
    ∀ (i : Nat) (bs : List String), (fallbackFrom errMsg i bs).map RankEntry.brand = bs := by
  intro i bs
  induction bs generalizing i with
  | nil => rfl
  | cons b bs ih => simpa [fallbackFrom] using ih (i + 1)

theorem fallbackFrom_map_rank (errMsg : String) :
    ∀ (i : Nat) (bs : List String),
      (fallbackFrom errMsg i bs).map RankEntry.rank = List.range' (i + 1) bs.length := by
  intro i bs
  induction bs generalizing i with
  | nil => rfl
  | cons b bs ih =>
    show (i + 1) :: (fallbackFrom errMsg (i + 1) bs).map RankEntry.rank = _
    rw [ih (i + 1)]
    rfl

theorem fallbackFrom_entries (errMsg : String) :
    ∀ (i : Nat) (bs : List String), ∀ e ∈ fallbackFrom errMsg i bs,
      e.originality_score = 5 ∧ e.examples = [] ∧
      e.justification = "Fallback due to ranking error: " ++ strTake errMsg 100 := by
  intro i bs
  induction bs generalizing i with
  | nil => intro e he; cases he
  | cons b bs ih =>
    intro e he
    rcases List.mem_cons.mp he with he | he
    · subst he; exact ⟨rfl, rfl, rfl⟩
    · exact ih (i + 1) e he

/-- Claim C6, counterexample: the fallback table is built from the brand
column of the top-k table, not from the set of non-skipped brands — a
non-skipped brand whose within-brand selection yielded no rows (an empty
`selected_topk`) is absent from the fallback table, so the table does not
contain every non-skipped brand. -/
theorem c6_counterexample :
    rankingFailed (.error ()) = true ∧
    "Acme" ∈ nonSkippedBrands
      [⟨"Zeta", false, "", none, [⟨"Zeta", none, "t"⟩]⟩,
       ⟨"Acme", false, "", none, []⟩] ∧
    crossBrandRankings (.error ())
      (topkBrandColumn [⟨"Zeta", false, "", none, [⟨"Zeta", none, "t"⟩]⟩,
                        ⟨"Acme", false, "", none, []⟩]) "boom" =
      .inl [⟨"Zeta", 1, 5, "Fallback due to ranking error: boom", []⟩] ∧
    "Acme" ∉ ([⟨"Zeta", 1, 5, "Fallback due to ranking error: boom", []⟩] :
      List RankEntry).map RankEntry.brand := by
  exact ⟨rfl, by decide, rfl, by decide⟩

/-- Claim C6 (amended): whenever the cross-brand ranking call raises or its
result fails validation, the aggregator produces the complete deterministic
fallback table over the brands that appear in the top-k rows table (the
non-skipped brands that contributed at least one selected row): each such
brand exactly once (the table's brand list is duplicate-free), in strictly
ascending alphabetical order, with rank `i + 1` at position `i`, neutral
originality score `5.0`, and empty examples — never an empty-or-partial
table relative to that brand column. -/
theorem c6_ranking_fallback (results : List BrandResult)
    (crossBrand : Except Unit Json) (errMsg : String)
    (hfail : rankingFailed crossBrand = true) :
    crossBrandRankings crossBrand (topkBrandColumn results) errMsg =
      .inl (fallbackTable (topkBrandColumn results) errMsg) ∧
    (fallbackTable (topkBrandColumn results) errMsg).map RankEntry.brand =
      sortedUnique (topkBrandColumn results) ∧
    (sortedUnique (topkBrandColumn results)).Nodup ∧
    List.Sorted (· < ·) (sortedUnique (topkBrandColumn results)) ∧
    (∀ b, b ∈ sortedUnique (topkBrandColumn results) ↔ b ∈ topkBrandColumn results) ∧
    (fallbackTable (topkBrandColumn results) errMsg).map RankEntry.rank =
      List.range' 1 (sortedUnique (topkBrandColumn results)).length ∧
    (∀ e ∈ fallbackTable (topkBrandColumn results) errMsg,
      e.originality_score = 5 ∧ e.examples = [] ∧
      e.justification = "Fallback due to ranking error: " ++ strTake errMsg 100) := by
  refine ⟨?_, fallbackFrom_map_brand errMsg 0 _, sortedUnique_nodup _,
    sortedUnique_sorted_lt _, fun b => sortedUnique_mem _ b,
    fallbackFrom_map_rank errMsg 0 _, fallbackFrom_entries errMsg 0 _⟩
  unfold crossBrandRankings
  cases crossBrand with
  | error e => rfl
  | ok data =>
    have hnone : validateRankings data = none := by
      unfold rankingFailed at hfail
      exact Option.isNone_iff_eq_none.mp hfail
    simp only [hnone]

theorem c6_witness :
    rankingFailed (.ok (.obj [])) = true ∧
    (crossBrandRankings (.ok (.obj []))
        (topkBrandColumn [⟨"B", false, "", none, [⟨"B", none, "t"⟩]⟩,
                          ⟨"A", false, "", none, [⟨"A", none, "s"⟩]⟩]) "oops" =
      .inl (fallbackTable (topkBrandColumn
        [⟨"B", false, "", none, [⟨"B", none, "t"⟩]⟩,
         ⟨"A", false, "", none, [⟨"A", none, "s"⟩]⟩]) "oops") ∧
    (fallbackTable (topkBrandColumn
        [⟨"B", false, "", none, [⟨"B", none, "t"⟩]⟩,
         ⟨"A", false, "", none, [⟨"A", none, "s"⟩]⟩]) "oops").map RankEntry.brand =
      sortedUnique (topkBrandColumn
        [⟨"B", false, "", none, [⟨"B", none, "t"⟩]⟩,
         ⟨"A", false, "", none, [⟨"A", none, "s"⟩]⟩]) ∧
    (sortedUnique (topkBrandColumn
        [⟨"B", false, "", none, [⟨"B", none, "t"⟩]⟩,
         ⟨"A", false, "", none, [⟨"A", none, "s"⟩]⟩])).Nodup ∧
    List.Sorted (· < ·) (sortedUnique (topkBrandColumn
        [⟨"B", false, "", none, [⟨"B", none, "t"⟩]⟩,
         ⟨"A", false, "", none, [⟨"A", none, "s"⟩]⟩])) ∧
    (∀ b, b ∈ sortedUnique (topkBrandColumn
        [⟨"B", false, "", none, [⟨"B", none, "t"⟩]⟩,
         ⟨"A", false, "", none, [⟨"A", none, "s"⟩]⟩]) ↔
      b ∈ topkBrandColumn
        [⟨"B", false, "", none, [⟨"B", none, "t"⟩]⟩,
         ⟨"A", false, "", none, [⟨"A", none, "s"⟩]⟩]) ∧
    (fallbackTable (topkBrandColumn
        [⟨"B", false, "", none, [⟨"B", none, "t"⟩]⟩,
         ⟨"A", false, "", none, [⟨"A", none, "s"⟩]⟩]) "oops").map RankEntry.rank =
      List.range' 1 (sortedUnique (topkBrandColumn
        [⟨"B", false, "", none, [⟨"B", none, "t"⟩]⟩,
         ⟨"A", false, "", none, [⟨"A", none, "s"⟩]⟩])).length ∧
    (∀ e ∈ fallbackTable (topkBrandColumn
        [⟨"B", false, "", none, [⟨"B", none, "t"⟩]⟩,
         ⟨"A", false, "", none, [⟨"A", none, "s"⟩]⟩]) "oops",
      e.originality_score = 5 ∧ e.examples = [] ∧
      e.justification = "Fallback due to ranking error: " ++ strTake "oops" 100)) := by
  refine ⟨rfl, ?_⟩
  exact c6_ranking_fallback
    [⟨"B", false, "", none, [⟨"B", none, "t"⟩]⟩,
     ⟨"A", false, "", none, [⟨"A", none, "s"⟩]⟩] (.ok (.obj [])) "oops" rfl

end Akropolis
